import Mathlib

/-!
Shallow embedding of `rogue/server/red_teaming/strategy_metadata.py`.

The Python module keeps a process-wide dict `STRATEGY_REGISTRY` from
strategy-id strings to `StrategyMetadata` dataclass values, with accessors
`get_strategy_metadata`, `get_all_strategies`, `is_human_exploitable`,
`get_complexity` and the mutator `register_strategy`.

The dict is embedded as an association list whose insert overwrites in
place, mirroring Python dict update semantics. `str.lower()` is embedded
as `String.toLower` (all ids in play are ASCII). `get_strategy_metadata`
returns an `Option`: Python evaluates the default argument
`STRATEGY_REGISTRY["unknown"]` eagerly, so the whole call raises
(`none` here) exactly when the key `"unknown"` is absent from the dict,
regardless of whether the looked-up id is present.
-/

namespace StrategyMeta

/-- Embedding of the `StrategyMetadata` dataclass. `complexity` is a plain
string in the embedding because the Python `Literal` annotation is not
enforced at runtime; `category` defaults to `None`, i.e. `none`. -/
structure StrategyMetadata where
  human_exploitable : Bool
  complexity : String
  description : String
  category : Option String
deriving DecidableEq

/-- The registry state: a Python dict embedded as an association list. -/
abbrev Registry : Type := List (String × StrategyMetadata)

/-- Embedding of Python `d.get(k)` / `d[k]` success: first binding wins
(keys are unique in any state built by `dictInsert`). -/
def dictGet? : Registry → String → Option StrategyMetadata
  | [], _ => none
  | (k', v') :: rest, k => if k' = k then some v' else dictGet? rest k

/-- Embedding of Python `d[k] = v`: overwrite in place if the key exists,
else append, mirroring dict insertion-order semantics. -/
def dictInsert : Registry → String → StrategyMetadata → Registry
  | [], k, v => [(k, v)]
  | (k', v') :: rest, k, v =>
    if k' = k then (k, v) :: rest else (k', v') :: dictInsert rest k v

/-- The keys of a registry state in order. -/
def keys (reg : Registry) : List String := reg.map Prod.fst

/-- Embedding of the module-level `STRATEGY_REGISTRY` dict literal, entry
for entry in source order. -/
def STRATEGY_REGISTRY : Registry :=
  [ ("base64",
      { human_exploitable := true, complexity := "low",
        description := "Encode malicious prompts in Base64 to bypass filters",
        category := some "LLM_01" }),
    ("rot13",
      { human_exploitable := true, complexity := "low",
        description := "Use ROT13 encoding to obfuscate malicious content",
        category := some "LLM_01" }),
    ("leetspeak",
      { human_exploitable := true, complexity := "low",
        description := "Use leetspeak substitutions to bypass keyword filters",
        category := some "LLM_01" }),
    ("payload_splitting",
      { human_exploitable := true, complexity := "medium",
        description := "Split malicious payload across multiple inputs",
        category := some "LLM_01" }),
    ("jailbreak_linear",
      { human_exploitable := true, complexity := "low",
        description := "Direct jailbreak attempt with single prompt",
        category := some "LLM_01" }),
    ("prompt_injection",
      { human_exploitable := true, complexity := "low",
        description := "Inject malicious instructions into prompts",
        category := some "LLM_01" }),
    ("role_play",
      { human_exploitable := true, complexity := "medium",
        description := "Use role-playing scenarios to bypass restrictions",
        category := some "LLM_01" }),
    ("multilingual",
      { human_exploitable := true, complexity := "medium",
        description := "Use non-English languages to evade filters",
        category := some "LLM_01" }),
    ("crescendo",
      { human_exploitable := true, complexity := "medium",
        description := "Gradually escalate malicious requests over multiple turns",
        category := some "LLM_01" }),
    ("tree",
      { human_exploitable := false, complexity := "high",
        description := "Explore multiple attack paths in tree structure",
        category := some "LLM_01" }),
    ("linear_multi_turn",
      { human_exploitable := true, complexity := "low",
        description := "Simple multi-turn conversation with escalating requests",
        category := some "LLM_01" }),
    ("hydra",
      { human_exploitable := false, complexity := "high",
        description := "Branching conversations with backtracking and automated iteration",
        category := some "LLM_01" }),
    ("goat",
      { human_exploitable := false, complexity := "high",
        description := "Generative Offensive Agent Tester - continuous agentic testing",
        category := some "LLM_01" }),
    ("iterative_basic",
      { human_exploitable := false, complexity := "medium",
        description := "Iterative refinement of single attack based on responses",
        category := some "LLM_01" }),
    ("iterative_tree",
      { human_exploitable := false, complexity := "high",
        description := "Tree-based iterative jailbreaks with parallel branches",
        category := some "LLM_01" }),
    ("iterative_meta",
      { human_exploitable := false, complexity := "high",
        description := "Meta-agent directed iterative attacks with strategic guidance",
        category := some "LLM_01" }),
    ("simba",
      { human_exploitable := false, complexity := "high",
        description := "Multi-phase red team: Recon → Probing → Planning → Attack",
        category := some "LLM_01" }),
    ("mischievous_user",
      { human_exploitable := true, complexity := "low",
        description := "Simulates problematic user behavior patterns",
        category := some "LLM_01" }),
    ("pii_extraction",
      { human_exploitable := true, complexity := "low",
        description := "Attempt to extract personally identifiable information",
        category := some "LLM_06" }),
    ("system_prompt_leak",
      { human_exploitable := true, complexity := "low",
        description := "Attempt to leak system prompts or instructions",
        category := some "LLM_06" }),
    ("html-indirect-prompt-injection",
      { human_exploitable := true, complexity := "low",
        description := "Inject hidden instructions via HTML served to web-browsing agents",
        category := some "LLM_02" }),
    ("sql_injection",
      { human_exploitable := true, complexity := "medium",
        description := "SQL injection attempts via LLM outputs",
        category := some "LLM_02" }),
    ("cross_site_scripting",
      { human_exploitable := true, complexity := "medium",
        description := "XSS attacks via LLM-generated content",
        category := some "LLM_02" }),
    ("unauthorized_action",
      { human_exploitable := true, complexity := "medium",
        description := "Trigger unauthorized actions or tool usage",
        category := some "LLM_08" }),
    ("unknown",
      { human_exploitable := false, complexity := "medium",
        description := "Unknown or unclassified attack strategy",
        category := none }) ]

/-- Embedding of Python `str.lower()`: lower-case every character. This is
exactly `String.toLower` (see `lower_eq_toLower`), stated on the character
list so that it reduces structurally. -/
def lower (s : String) : String := ⟨s.data.map Char.toLower⟩

/-- The embedding of `str.lower()` agrees with the standard library's
`String.toLower`. -/
theorem lower_eq_toLower (s : String) : lower s = s.toLower :=
  (String.map_eq Char.toLower s).symm

/-- Embedding of
`return STRATEGY_REGISTRY.get(strategy_id.lower(), STRATEGY_REGISTRY["unknown"])`.
The default `STRATEGY_REGISTRY["unknown"]` is evaluated eagerly in Python,
so the result is `none` (a raised `KeyError`) exactly when `"unknown"` is
absent, and otherwise the looked-up entry with fallback. -/
def get_strategy_metadata (reg : Registry) (strategy_id : String) :
    Option StrategyMetadata :=
  match dictGet? reg "unknown" with
  | none => none
  | some fallback => some ((dictGet? reg (lower strategy_id)).getD fallback)

/-- Embedding of `register_strategy`: build the dataclass value and store it
under `strategy_id.lower()`. -/
def register_strategy (reg : Registry) (strategy_id : String)
    (human_exploitable : Bool) (complexity : String) (description : String)
    (category : Option String) : Registry :=
  dictInsert reg (lower strategy_id)
    { human_exploitable := human_exploitable, complexity := complexity,
      description := description, category := category }

/-- Embedding of `get_all_strategies`: `STRATEGY_REGISTRY.copy()` returns a
fresh dict with the same contents, i.e. the same value in the embedding. -/
def get_all_strategies (reg : Registry) : Registry := reg

/-- Embedding of `is_human_exploitable`:
`return get_strategy_metadata(strategy_id).human_exploitable`. -/
def is_human_exploitable (reg : Registry) (strategy_id : String) :
    Option Bool :=
  (get_strategy_metadata reg strategy_id).map (fun m => m.human_exploitable)

/-- Embedding of `get_complexity`:
`return get_strategy_metadata(strategy_id).complexity`. -/
def get_complexity (reg : Registry) (strategy_id : String) : Option String :=
  (get_strategy_metadata reg strategy_id).map (fun m => m.complexity)

/-- One call of the module's public surface, for stating state invariants:
the four readers and the one writer. -/
inductive Op where
  | getMetadata (strategy_id : String)
  | getAll
  | register (strategy_id : String) (human_exploitable : Bool)
      (complexity : String) (description : String) (category : Option String)
  | isHuman (strategy_id : String)
  | getCx (strategy_id : String)

/-- State effect of one operation: only `register_strategy` writes. -/
def applyOp (reg : Registry) : Op → Registry
  | .register strategy_id he cx d cat =>
      register_strategy reg strategy_id he cx d cat
  | _ => reg

/-- State after a finite sequence of operations. -/
def runOps (reg : Registry) : List Op → Registry
  | [] => reg
  | op :: ops => runOps (applyOp reg op) ops

/-- Registry states reachable from the seeded module state by the public
operations. -/
def Reachable (reg : Registry) : Prop :=
  ∃ ops : List Op, runOps STRATEGY_REGISTRY ops = reg

/-- A snapshot scenario: take the full-store snapshot, mutate the returned
structure in an arbitrary way (the mutation result is local to the caller),
then look a strategy up in the live registry. -/
def mutate_snapshot_then_lookup (reg : Registry) (f : Registry → Registry)
    (strategy_id : String) : Option StrategyMetadata :=
  let snapshot := get_all_strategies reg
  let _mutated := f snapshot
  get_strategy_metadata reg strategy_id

/-! ## Basic lemmas about the dict embedding -/

/-- Looking up the key just inserted finds the inserted value. -/
theorem dictGet?_dictInsert_self (reg : Registry) (k : String)
    (v : StrategyMetadata) : dictGet? (dictInsert reg k v) k = some v := by
  induction reg with
  | nil => simp [dictInsert, dictGet?]
  | cons p rest ih =>
    obtain ⟨k', v'⟩ := p
    by_cases h : k' = k
    · subst h
      simp [dictInsert, dictGet?]
    · simp [dictInsert, dictGet?, h, ih]

/-- Looking up any other key is unaffected by an insert. -/
theorem dictGet?_dictInsert_of_ne (reg : Registry) (k k' : String)
    (v : StrategyMetadata) (h : k' ≠ k) :
    dictGet? (dictInsert reg k v) k' = dictGet? reg k' := by
  have h2 : ¬ k = k' := fun e => h e.symm
  induction reg with
  | nil => simp [dictInsert, dictGet?, h2]
  | cons p rest ih =>
    obtain ⟨k'', v''⟩ := p
    by_cases hk : k'' = k
    · subst hk
      simp [dictInsert, dictGet?, h2]
    · simp only [dictInsert, if_neg hk, dictGet?]
      by_cases hcur : k'' = k'
      · simp [hcur]
      · simp [hcur, ih]

/-- An insert never removes a key: any key present before stays present. -/
theorem dictGet?_dictInsert_isSome (reg : Registry) (k k' : String)
    (v : StrategyMetadata) (h : (dictGet? reg k').isSome = true) :
    (dictGet? (dictInsert reg k v) k').isSome = true := by
  by_cases hk : k' = k
  · subst hk
    rw [dictGet?_dictInsert_self]
    rfl
  · rw [dictGet?_dictInsert_of_ne reg k k' v hk]
    exact h

/-- Every binding of the dict after an insert is the inserted pair or an old
binding. -/
theorem mem_dictInsert (reg : Registry) (k : String) (v : StrategyMetadata)
    (p : String × StrategyMetadata) (hp : p ∈ dictInsert reg k v) :
    p = (k, v) ∨ p ∈ reg := by
  induction reg with
  | nil =>
    simp [dictInsert] at hp
    exact Or.inl hp
  | cons q rest ih =>
    obtain ⟨k', v'⟩ := q
    by_cases h : k' = k
    · subst h
      simp only [dictInsert, if_pos rfl] at hp
      rcases List.mem_cons.mp hp with h1 | h1
      · exact Or.inl h1
      · exact Or.inr (List.mem_cons_of_mem _ h1)
    · simp only [dictInsert, if_neg h] at hp
      rcases List.mem_cons.mp hp with h1 | h1
      · exact Or.inr (h1 ▸ List.mem_cons_self _ _)
      · rcases ih h1 with h2 | h2
        · exact Or.inl h2
        · exact Or.inr (List.mem_cons_of_mem _ h2)

/-! ## Idempotence of lower-casing -/

/-- Lower-casing a character twice is the same as once: the image of
`Char.toLower` never lands back in the upper-case ASCII range. -/
theorem char_toLower_idem (c : Char) : c.toLower.toLower = c.toLower := by
  by_cases h : c.toNat ≥ 65 ∧ c.toNat ≤ 90
  · have hc : c.toLower = Char.ofNat (c.toNat + 32) := by
      unfold Char.toLower
      rw [if_pos h]
    rw [hc]
    obtain ⟨h1, h2⟩ := h
    revert h1 h2
    generalize c.toNat = n
    intro h1 h2
    interval_cases n <;> decide
  · have hc : c.toLower = c := by
      unfold Char.toLower
      rw [if_neg h]
    rw [hc, hc]

/-- Python's `str.lower()` is idempotent. -/
theorem lower_idem (s : String) : lower (lower s) = lower s := by
  unfold lower
  refine congrArg String.mk ?_
  show (s.data.map Char.toLower).map Char.toLower = s.data.map Char.toLower
  rw [List.map_map]
  exact List.map_congr_left (fun c _ => char_toLower_idem c)

/-! ## Reachability infrastructure -/

/-- Running a concatenation of operation lists runs them in sequence. -/
theorem runOps_append (reg : Registry) (l1 l2 : List Op) :
    runOps reg (l1 ++ l2) = runOps (runOps reg l1) l2 := by
  induction l1 generalizing reg with
  | nil => rfl
  | cons op ops ih => simp [runOps, ih]

/-- The seeded module state is reachable. -/
theorem reachable_init : Reachable STRATEGY_REGISTRY := ⟨[], rfl⟩

/-- Reachability is preserved by registering a strategy. -/
theorem reachable_register (reg : Registry) (strategy_id : String) (he : Bool)
    (cx d : String) (cat : Option String) (h : Reachable reg) :
    Reachable (register_strategy reg strategy_id he cx d cat) := by
  obtain ⟨ops, hops⟩ := h
  refine ⟨ops ++ [Op.register strategy_id he cx d cat], ?_⟩
  rw [runOps_append, hops]
  rfl

/-- A property of the registry that holds initially and is preserved by
`register_strategy` holds in every reachable state. -/
theorem reachable_invariant (P : Registry → Prop)
    (hinit : P STRATEGY_REGISTRY)
    (hstep : ∀ reg strategy_id he cx d cat, P reg →
      P (register_strategy reg strategy_id he cx d cat))
    (reg : Registry) (h : Reachable reg) : P reg := by
  obtain ⟨ops, hops⟩ := h
  subst hops
  suffices hgen : ∀ ops reg, P reg → P (runOps reg ops) from
    hgen ops STRATEGY_REGISTRY hinit
  intro ops
  induction ops with
  | nil => intro reg hreg; exact hreg
  | cons op rest ih =>
    intro reg hreg
    cases op with
    | register strategy_id he cx d cat =>
      exact ih _ (hstep reg strategy_id he cx d cat hreg)
    | getMetadata strategy_id => exact ih _ hreg
    | getAll => exact ih _ hreg
    | isHuman strategy_id => exact ih _ hreg
    | getCx strategy_id => exact ih _ hreg

/-- In every reachable state the key `"unknown"` is present. -/
theorem reachable_unknown_isSome (reg : Registry) (h : Reachable reg) :
    (dictGet? reg "unknown").isSome = true := by
  refine reachable_invariant (fun r => (dictGet? r "unknown").isSome = true)
    (by decide) ?_ reg h
  intro r strategy_id he cx d cat hr
  exact dictGet?_dictInsert_isSome r (lower strategy_id) "unknown" _ hr

/-- On a registry that contains `"unknown"`, `get_strategy_metadata` finds
the freshly registered entry under any id with the same lowercase form. -/
theorem get_strategy_metadata_register (reg : Registry)
    (strategy_id id2 : String) (he : Bool) (cx d : String)
    (cat : Option String) (hu : (dictGet? reg "unknown").isSome = true)
    (hid : lower id2 = lower strategy_id) :
    get_strategy_metadata (register_strategy reg strategy_id he cx d cat) id2 =
      some { human_exploitable := he, complexity := cx, description := d,
             category := cat } := by
  have hu2 : (dictGet? (register_strategy reg strategy_id he cx d cat)
      "unknown").isSome = true :=
    dictGet?_dictInsert_isSome reg (lower strategy_id) "unknown" _ hu
  obtain ⟨u, hu3⟩ := Option.isSome_iff_exists.mp hu2
  unfold get_strategy_metadata
  rw [hu3, hid]
  show some ((dictGet? (dictInsert reg (lower strategy_id) _)
    (lower strategy_id)).getD u) = _
  rw [dictGet?_dictInsert_self]
  rfl

/-! ## Claims -/

/-- C1: for every input string whose lowercase form is not a key of the
initial registry, `get_strategy_metadata` on the initial registry returns
the entry stored under the key `"unknown"` (human_exploitable false,
complexity medium, description "Unknown or unclassified attack strategy",
category absent), and the lookup succeeds — never raises — for every input
string. -/
theorem c1_unknown_fallback (s : String) :
    (get_strategy_metadata STRATEGY_REGISTRY s).isSome = true ∧
    (dictGet? STRATEGY_REGISTRY (lower s) = none →
      get_strategy_metadata STRATEGY_REGISTRY s =
        some { human_exploitable := false, complexity := "medium",
               description := "Unknown or unclassified attack strategy",
               category := none }) := by
  have key : get_strategy_metadata STRATEGY_REGISTRY s =
      some ((dictGet? STRATEGY_REGISTRY (lower s)).getD
        { human_exploitable := false, complexity := "medium",
          description := "Unknown or unclassified attack strategy",
          category := none }) := rfl
  constructor
  · rw [key]
    rfl
  · intro h
    rw [key, h]
    rfl

/-- C1 witness: the miss `"nonexistent_strategy_xyz"` hits the fallback and
returns the `"unknown"` entry. -/
theorem c1_unknown_fallback_witness :
    dictGet? STRATEGY_REGISTRY (lower "nonexistent_strategy_xyz") = none ∧
    get_strategy_metadata STRATEGY_REGISTRY "nonexistent_strategy_xyz" =
      some { human_exploitable := false, complexity := "medium",
             description := "Unknown or unclassified attack strategy",
             category := none } :=
  ⟨by decide, (c1_unknown_fallback "nonexistent_strategy_xyz").2 (by decide)⟩

/-- C2: lookup is case-insensitive — on every registry state and every
string, looking up the string and looking up its lowercase form agree; in
particular `"BASE64"` and `"base64"` agree on the initial registry. -/
theorem c2_case_insensitive (reg : Registry) (s : String) :
    get_strategy_metadata reg s = get_strategy_metadata reg (lower s) ∧
    get_strategy_metadata STRATEGY_REGISTRY "BASE64" =
      get_strategy_metadata STRATEGY_REGISTRY "base64" := by
  constructor
  · unfold get_strategy_metadata
    rw [lower_idem]
  · decide

/-- C3: register followed by lookup round-trips with full overwrite — on
every reachable registry state, after `register_strategy` the lookup of any
id with the same lowercase form returns exactly the four registered field
values, whether or not an entry for that id existed before. -/
theorem c3_register_roundtrip (reg : Registry) (strategy_id id2 : String)
    (he : Bool) (cx d : String) (cat : Option String)
    (hreach : Reachable reg) (hid : lower id2 = lower strategy_id) :
    get_strategy_metadata (register_strategy reg strategy_id he cx d cat)
      id2 =
      some { human_exploitable := he, complexity := cx, description := d,
             category := cat } :=
  get_strategy_metadata_register reg strategy_id id2 he cx d cat
    (reachable_unknown_isSome reg hreach) hid

/-- C3 witness: registering `"custom1"` on the seeded registry and looking
up `"CUSTOM1"` returns exactly the registered fields; a second witness
overwrites the existing `"base64"` entry. -/
theorem c3_register_roundtrip_witness :
    (lower "CUSTOM1" = lower "custom1" ∧
      get_strategy_metadata
        (register_strategy STRATEGY_REGISTRY "custom1" true "high"
          "test desc" (some "LLM_09")) "CUSTOM1" =
        some { human_exploitable := true, complexity := "high",
               description := "test desc", category := some "LLM_09" }) ∧
    get_strategy_metadata
      (register_strategy STRATEGY_REGISTRY "base64" false "high" "changed"
        none) "base64" =
      some { human_exploitable := false, complexity := "high",
             description := "changed", category := none } :=
  ⟨⟨by decide,
      c3_register_roundtrip STRATEGY_REGISTRY "custom1" "CUSTOM1" true
        "high" "test desc" (some "LLM_09") ⟨[], rfl⟩ (by decide)⟩,
    c3_register_roundtrip STRATEGY_REGISTRY "base64" "base64" false "high"
      "changed" none ⟨[], rfl⟩ rfl⟩

/-- C4: in the initial seeded registry state the store holds exactly the 25
built-in entries of spec section 6 in source order — no more and no fewer —
and for each built-in id `get_strategy_metadata` returns exactly the
human_exploitable, complexity, category and verbatim description values of
the source table. -/
theorem c4_seeded_registry_exact :
    keys STRATEGY_REGISTRY =
      [ "base64",
      "rot13",
      "leetspeak",
      "payload_splitting",
      "jailbreak_linear",
      "prompt_injection",
      "role_play",
      "multilingual",
      "crescendo",
      "tree",
      "linear_multi_turn",
      "hydra",
      "goat",
      "iterative_basic",
      "iterative_tree",
      "iterative_meta",
      "simba",
      "mischievous_user",
      "pii_extraction",
      "system_prompt_leak",
      "html-indirect-prompt-injection",
      "sql_injection",
      "cross_site_scripting",
      "unauthorized_action",
      "unknown" ] ∧
    get_strategy_metadata STRATEGY_REGISTRY "base64" =
      some { human_exploitable := true, complexity := "low",
             description := "Encode malicious prompts in Base64 to bypass filters",
             category := some "LLM_01" } ∧
    get_strategy_metadata STRATEGY_REGISTRY "rot13" =
      some { human_exploitable := true, complexity := "low",
             description := "Use ROT13 encoding to obfuscate malicious content",
             category := some "LLM_01" } ∧
    get_strategy_metadata STRATEGY_REGISTRY "leetspeak" =
      some { human_exploitable := true, complexity := "low",
             description := "Use leetspeak substitutions to bypass keyword filters",
             category := some "LLM_01" } ∧
    get_strategy_metadata STRATEGY_REGISTRY "payload_splitting" =
      some { human_exploitable := true, complexity := "medium",
             description := "Split malicious payload across multiple inputs",
             category := some "LLM_01" } ∧
    get_strategy_metadata STRATEGY_REGISTRY "jailbreak_linear" =
      some { human_exploitable := true, complexity := "low",
             description := "Direct jailbreak attempt with single prompt",
             category := some "LLM_01" } ∧
    get_strategy_metadata STRATEGY_REGISTRY "prompt_injection" =
      some { human_exploitable := true, complexity := "low",
             description := "Inject malicious instructions into prompts",
             category := some "LLM_01" } ∧
    get_strategy_metadata STRATEGY_REGISTRY "role_play" =
      some { human_exploitable := true, complexity := "medium",
             description := "Use role-playing scenarios to bypass restrictions",
             category := some "LLM_01" } ∧
    get_strategy_metadata STRATEGY_REGISTRY "multilingual" =
      some { human_exploitable := true, complexity := "medium",
             description := "Use non-English languages to evade filters",
             category := some "LLM_01" } ∧
    get_strategy_metadata STRATEGY_REGISTRY "crescendo" =
      some { human_exploitable := true, complexity := "medium",
             description := "Gradually escalate malicious requests over multiple turns",
             category := some "LLM_01" } ∧
    get_strategy_metadata STRATEGY_REGISTRY "tree" =
      some { human_exploitable := false, complexity := "high",
             description := "Explore multiple attack paths in tree structure",
             category := some "LLM_01" } ∧
    get_strategy_metadata STRATEGY_REGISTRY "linear_multi_turn" =
      some { human_exploitable := true, complexity := "low",
             description := "Simple multi-turn conversation with escalating requests",
             category := some "LLM_01" } ∧
    get_strategy_metadata STRATEGY_REGISTRY "hydra" =
      some { human_exploitable := false, complexity := "high",
             description := "Branching conversations with backtracking and automated iteration",
             category := some "LLM_01" } ∧
    get_strategy_metadata STRATEGY_REGISTRY "goat" =
      some { human_exploitable := false, complexity := "high",
             description := "Generative Offensive Agent Tester - continuous agentic testing",
             category := some "LLM_01" } ∧
    get_strategy_metadata STRATEGY_REGISTRY "iterative_basic" =
      some { human_exploitable := false, complexity := "medium",
             description := "Iterative refinement of single attack based on responses",
             category := some "LLM_01" } ∧
    get_strategy_metadata STRATEGY_REGISTRY "iterative_tree" =
      some { human_exploitable := false, complexity := "high",
             description := "Tree-based iterative jailbreaks with parallel branches",
             category := some "LLM_01" } ∧
    get_strategy_metadata STRATEGY_REGISTRY "iterative_meta" =
      some { human_exploitable := false, complexity := "high",
             description := "Meta-agent directed iterative attacks with strategic guidance",
             category := some "LLM_01" } ∧
    get_strategy_metadata STRATEGY_REGISTRY "simba" =
      some { human_exploitable := false, complexity := "high",
             description := "Multi-phase red team: Recon → Probing → Planning → Attack",
             category := some "LLM_01" } ∧
    get_strategy_metadata STRATEGY_REGISTRY "mischievous_user" =
      some { human_exploitable := true, complexity := "low",
             description := "Simulates problematic user behavior patterns",
             category := some "LLM_01" } ∧
    get_strategy_metadata STRATEGY_REGISTRY "pii_extraction" =
      some { human_exploitable := true, complexity := "low",
             description := "Attempt to extract personally identifiable information",
             category := some "LLM_06" } ∧
    get_strategy_metadata STRATEGY_REGISTRY "system_prompt_leak" =
      some { human_exploitable := true, complexity := "low",
             description := "Attempt to leak system prompts or instructions",
             category := some "LLM_06" } ∧
    get_strategy_metadata STRATEGY_REGISTRY "html-indirect-prompt-injection" =
      some { human_exploitable := true, complexity := "low",
             description := "Inject hidden instructions via HTML served to web-browsing agents",
             category := some "LLM_02" } ∧
    get_strategy_metadata STRATEGY_REGISTRY "sql_injection" =
      some { human_exploitable := true, complexity := "medium",
             description := "SQL injection attempts via LLM outputs",
             category := some "LLM_02" } ∧
    get_strategy_metadata STRATEGY_REGISTRY "cross_site_scripting" =
      some { human_exploitable := true, complexity := "medium",
             description := "XSS attacks via LLM-generated content",
             category := some "LLM_02" } ∧
    get_strategy_metadata STRATEGY_REGISTRY "unauthorized_action" =
      some { human_exploitable := true, complexity := "medium",
             description := "Trigger unauthorized actions or tool usage",
             category := some "LLM_08" } ∧
    get_strategy_metadata STRATEGY_REGISTRY "unknown" =
      some { human_exploitable := false, complexity := "medium",
             description := "Unknown or unclassified attack strategy",
             category := none } := by
  refine ⟨rfl, rfl, rfl, rfl, rfl, rfl, rfl, rfl, rfl, rfl, rfl, rfl, rfl, rfl, rfl, rfl, rfl, rfl, rfl, rfl, rfl, rfl, rfl, rfl, rfl, rfl⟩

/-- C5: the convenience accessors agree with the corresponding fields of
`get_strategy_metadata` on every registry state and every id, including
ids that resolve through the fallback. -/
theorem c5_accessors_agree (reg : Registry) (s : String)
    (m : StrategyMetadata) (h : get_strategy_metadata reg s = some m) :
    is_human_exploitable reg s = some m.human_exploitable ∧
    get_complexity reg s = some m.complexity := by
  unfold is_human_exploitable get_complexity
  rw [h]
  exact ⟨rfl, rfl⟩

/-- C5 witness: on the unrecognized id `"nonexistent_strategy_xyz"` the
accessors return the fallback entry fields. -/
theorem c5_accessors_agree_witness :
    get_strategy_metadata STRATEGY_REGISTRY "nonexistent_strategy_xyz" =
      some { human_exploitable := false, complexity := "medium",
             description := "Unknown or unclassified attack strategy",
             category := none } ∧
    is_human_exploitable STRATEGY_REGISTRY "nonexistent_strategy_xyz" =
      some false ∧
    get_complexity STRATEGY_REGISTRY "nonexistent_strategy_xyz" =
      some "medium" :=
  ⟨by decide,
    c5_accessors_agree STRATEGY_REGISTRY "nonexistent_strategy_xyz"
      { human_exploitable := false, complexity := "medium",
        description := "Unknown or unclassified attack strategy",
        category := none }
      (by decide)⟩

/-- C6: `get_all_strategies` returns the full store contents and has no
side effect on the registry; mutating the returned snapshot in any way
leaves every subsequent `get_strategy_metadata` on the live registry
unchanged. -/
theorem c6_snapshot_copy (reg : Registry) (f : Registry → Registry)
    (strategy_id : String) :
    get_all_strategies reg = reg ∧
    applyOp reg Op.getAll = reg ∧
    mutate_snapshot_then_lookup reg f strategy_id =
      get_strategy_metadata reg strategy_id :=
  ⟨rfl, rfl, rfl⟩

/-- C7: the key `"unknown"` is present in every registry state reachable
from the seeded state by the public operations — no operation removes it
and no deletion operation exists — so the fallback target is always
available. -/
theorem c7_unknown_always_present (reg : Registry) (h : Reachable reg) :
    (dictGet? reg "unknown").isSome = true :=
  reachable_unknown_isSome reg h

/-- C7 witness: `"unknown"` is still present after a register step on the
seeded state. -/
theorem c7_unknown_always_present_witness :
    (dictGet? (runOps STRATEGY_REGISTRY
      [Op.register "custom1" true "high" "test desc" (some "LLM_09")])
      "unknown").isSome = true :=
  c7_unknown_always_present _
    ⟨[Op.register "custom1" true "high" "test desc" (some "LLM_09")], rfl⟩

/-- C8: every key of every reachable registry state is a lowercase string:
the seeded keys are lowercase and `register_strategy` lower-cases the id
before inserting, while no other operation adds keys. -/
theorem c8_keys_lowercase (reg : Registry) (h : Reachable reg) :
    ∀ p ∈ reg, lower p.1 = p.1 := by
  refine reachable_invariant (fun r => ∀ p ∈ r, lower p.1 = p.1) ?_ ?_ reg h
  · decide
  · intro r strategy_id he cx d cat hr p hp
    rcases mem_dictInsert r (lower strategy_id) _ p hp with h1 | h1
    · rw [h1]
      exact lower_idem strategy_id
    · exact hr p h1

/-- C8 witness: after registering the mixed-case id `"CuStOm1"` on the
seeded state, the binding is stored under the lowercase key. -/
theorem c8_keys_lowercase_witness :
    ("custom1",
      ({ human_exploitable := true, complexity := "high",
         description := "test desc",
         category := some "LLM_09" } : StrategyMetadata)) ∈
      register_strategy STRATEGY_REGISTRY "CuStOm1" true "high" "test desc"
        (some "LLM_09") ∧
    lower "custom1" = "custom1" :=
  ⟨by decide,
    c8_keys_lowercase
      (register_strategy STRATEGY_REGISTRY "CuStOm1" true "high"
        "test desc" (some "LLM_09"))
      ⟨[Op.register "CuStOm1" true "high" "test desc" (some "LLM_09")],
        rfl⟩
      ("custom1",
        { human_exploitable := true, complexity := "high",
          description := "test desc", category := some "LLM_09" })
      (by decide)⟩

/-- C9: `register_strategy` performs no runtime validation of the
complexity argument — on every reachable state, any string value,
including one outside the documented three-value set, is stored unchanged
and returned by a subsequent `get_complexity` on the same id. -/
theorem c9_no_complexity_validation (reg : Registry) (strategy_id : String)
    (he : Bool) (cx d : String) (cat : Option String)
    (hreach : Reachable reg) :
    get_complexity (register_strategy reg strategy_id he cx d cat)
      strategy_id = some cx := by
  unfold get_complexity
  rw [get_strategy_metadata_register reg strategy_id strategy_id he cx d
    cat (reachable_unknown_isSome reg hreach) rfl]
  rfl

/-- C9 witness: the out-of-enum complexity string `"not_a_valid_tier"` is
accepted and read back. -/
theorem c9_no_complexity_validation_witness :
    get_complexity (register_strategy STRATEGY_REGISTRY "custom2" false
      "not_a_valid_tier" "desc" none) "custom2" =
      some "not_a_valid_tier" :=
  c9_no_complexity_validation STRATEGY_REGISTRY "custom2" false
    "not_a_valid_tier" "desc" none ⟨[], rfl⟩

/-- C10: the fallback entry is mutable through the public mutator —
registering any id whose lowercase form is `"unknown"` overwrites the
entry stored under `"unknown"`, after which every lookup of an
unrecognized id returns the newly registered field values. -/
theorem c10_fallback_mutable (reg : Registry) (strategy_id s : String)
    (he : Bool) (cx d : String) (cat : Option String)
    (hid : lower strategy_id = "unknown")
    (hmiss : dictGet? (register_strategy reg strategy_id he cx d cat)
      (lower s) = none) :
    get_strategy_metadata (register_strategy reg strategy_id he cx d cat)
      s =
      some { human_exploitable := he, complexity := cx, description := d,
             category := cat } := by
  have hu : dictGet? (register_strategy reg strategy_id he cx d cat)
      "unknown" =
      some { human_exploitable := he, complexity := cx, description := d,
             category := cat } := by
    unfold register_strategy
    rw [← hid]
    exact dictGet?_dictInsert_self reg (lower strategy_id) _
  unfold get_strategy_metadata
  rw [hu, hmiss]
  rfl

/-- C10 witness: after registering `"Unknown"` with new fields on the
seeded state, an unrecognized id resolves to the new fallback values. -/
theorem c10_fallback_mutable_witness :
    lower "Unknown" = "unknown" ∧
    dictGet? (register_strategy STRATEGY_REGISTRY "Unknown" true "high"
      "overridden" (some "LLM_09")) (lower "nonexistent_strategy_xyz") =
      none ∧
    get_strategy_metadata (register_strategy STRATEGY_REGISTRY "Unknown"
      true "high" "overridden" (some "LLM_09"))
      "nonexistent_strategy_xyz" =
      some { human_exploitable := true, complexity := "high",
             description := "overridden", category := some "LLM_09" } :=
  ⟨by decide, by decide,
    c10_fallback_mutable STRATEGY_REGISTRY "Unknown"
      "nonexistent_strategy_xyz" true "high" "overridden" (some "LLM_09")
      (by decide) (by decide)⟩

end StrategyMeta
